import Mathlib

/-!
Shallow embedding of the aviabot-shared-logging core: the log entity layer
(domain/entities/log_entry.go), the domain errors (domain/errors/errors.go),
the repository filter and stats value objects (domain/interfaces), and the
three use cases (LogEventUseCase, QueryLogsUseCase, GetLogStatsUseCase).

Modelling conventions:
- Go `int` / `int64` / `LogLevel` (an int) become Lean `Int`; no overflow is
  relevant on any path the claims touch.
- Go `time.Time` becomes `Int`: the zero value is `0` (`IsZero` is `= 0`)
  and `t.Before(u)` is `t < u`.
- The source only uses `strings.TrimSpace` in the idiom
  `strings.TrimSpace(s) == ""`; that whole idiom is modelled by
  `trimSpaceIsEmpty s`, true iff every character of `s` is whitespace
  (Go's Latin-1 whitespace set), which is equivalent for Go since trimming
  leading and trailing whitespace yields "" exactly when all characters are
  whitespace.
- The metadata bag is an association list `List (String × String)`; the use
  cases only copy it verbatim, never inspect it.
- Each collaborator (repository, alert service, id generator, clock) is a
  pure function supplied in an environment record, and each use case returns
  a trace recording its result together with every collaborator invocation,
  in order, so that claims about which collaborators run can be stated.
-/

/-- The whitespace characters of Go's `unicode.IsSpace` in the Latin-1 range:
tab, newline, vertical tab, form feed, carriage return, space, NEL, NBSP. -/
def goIsSpace (c : Char) : Bool :=
  c == '\t' || c == '\n' || c == Char.ofNat 11 || c == Char.ofNat 12 ||
  c == '\r' || c == ' ' || c == Char.ofNat 133 || c == Char.ofNat 160

/-- The Go idiom `strings.TrimSpace(s) == ""`: trimming leading and trailing
whitespace yields the empty string exactly when every character is whitespace. -/
def trimSpaceIsEmpty (s : String) : Bool := s.data.all goIsSpace

/-- LogLevel is declared in Go as `type LogLevel int`. -/
abbrev LogLevel := Int

def LogLevelDebug : LogLevel := 1

def LogLevelInfo : LogLevel := 2

def LogLevelWarning : LogLevel := 3

def LogLevelError : LogLevel := 4

def LogLevelCritical : LogLevel := 5

/-- `func (l LogLevel) IsValid() bool`: `l >= LogLevelDebug && l <= LogLevelCritical`. -/
def LogLevel.IsValid (l : LogLevel) : Bool :=
  decide (LogLevelDebug ≤ l) && decide (l ≤ LogLevelCritical)

/-- The LogEntry record of domain/entities/log_entry.go. -/
structure LogEntry where
  ID : String
  Level : LogLevel
  Service : String
  Event : String
  Timestamp : Int
  UserID : Option Int
  ChatID : Option Int
  Message : String
  Metadata : List (String × String)
deriving DecidableEq, Repr

/-- `func (l LogEntry) IsValid() bool`, checks in source order:
trimmed ID, level validity, trimmed Service, trimmed Event, zero Timestamp,
trimmed Message. -/
def LogEntry.IsValid (l : LogEntry) : Bool :=
  if trimSpaceIsEmpty l.ID then false
  else if !(LogLevel.IsValid l.Level) then false
  else if trimSpaceIsEmpty l.Service then false
  else if trimSpaceIsEmpty l.Event then false
  else if l.Timestamp == 0 then false
  else if trimSpaceIsEmpty l.Message then false
  else true

/-- `func (l LogEntry) ShouldAlert() bool`: level is ERROR or CRITICAL. -/
def LogEntry.ShouldAlert (l : LogEntry) : Bool :=
  l.Level == LogLevelError || l.Level == LogLevelCritical

/-- The domain error values of domain/errors/errors.go. -/
inductive DomainError where
  | logNotFound
  | invalidLogEntry
  | invalidLogLevel
  | invalidFilter
  | storageUnavailable
  | alertServiceUnavailable
  | idGenerationFailed
  | unauthorized
  | rateLimitExceeded
deriving DecidableEq, Repr

instance {ε α : Type} [DecidableEq ε] [DecidableEq α] : DecidableEq (Except ε α) := fun a b =>
  match a, b with
  | Except.error e, Except.error f => decidable_of_iff (e = f) (by simp)
  | Except.error _, Except.ok _ => isFalse (by simp)
  | Except.ok _, Except.error _ => isFalse (by simp)
  | Except.ok x, Except.ok y => decidable_of_iff (x = y) (by simp)

/-- LogEventRequest DTO (application/usecases). -/
structure LogEventRequest where
  Level : LogLevel
  Service : String
  Event : String
  Message : String
  UserID : Option Int
  ChatID : Option Int
  Metadata : List (String × String)
deriving DecidableEq, Repr

/-- LogEventResponse DTO (application/usecases). -/
structure LogEventResponse where
  ID : String
  Timestamp : Int
  Success : Bool
  AlertSent : Bool
deriving DecidableEq, Repr

/-- The collaborators injected into LogEventUseCase: the id generator's
output, the clock's output, and the outcomes of Store and SendAlert
(`none` = nil error, `some e` = that error). -/
structure LogEventEnv where
  generate : String
  now : Int
  storeResult : LogEntry → Option DomainError
  sendAlertResult : LogEntry → Option DomainError

/-- Execution trace of one LogEventUseCase.Execute call: the returned value
and every collaborator invocation. -/
structure LogEventTrace where
  result : Except DomainError LogEventResponse
  generateCalls : Nat
  nowCalls : Nat
  storeCalls : List LogEntry
  sendAlertCalls : List LogEntry
deriving DecidableEq, Repr

/-- `func (uc *LogEventUseCase) validateRequest(request LogEventRequest) error`:
level validity, then trimmed Service, Event, Message; each failure returns
ErrInvalidLogEntry. -/
def LogEventUseCase.validateRequest (request : LogEventRequest) : Option DomainError :=
  if !(LogLevel.IsValid request.Level) then some DomainError.invalidLogEntry
  else if trimSpaceIsEmpty request.Service then some DomainError.invalidLogEntry
  else if trimSpaceIsEmpty request.Event then some DomainError.invalidLogEntry
  else if trimSpaceIsEmpty request.Message then some DomainError.invalidLogEntry
  else none

/-- The LogEntry literal built in LogEventUseCase.Execute from the request,
the generated id and the clock reading. -/
def LogEventUseCase.buildEntry (env : LogEventEnv) (request : LogEventRequest) : LogEntry :=
  { ID := env.generate
    Level := request.Level
    Service := request.Service
    Event := request.Event
    Timestamp := env.now
    UserID := request.UserID
    ChatID := request.ChatID
    Message := request.Message
    Metadata := request.Metadata }

/-- `func (uc *LogEventUseCase) Execute`: validate the request, build the
entry, re-validate it, store it, then best-effort alert when ShouldAlert. -/
def LogEventUseCase.Execute (env : LogEventEnv) (request : LogEventRequest) : LogEventTrace :=
  match LogEventUseCase.validateRequest request with
  | some e => ⟨Except.error e, 0, 0, [], []⟩
  | none =>
    let logEntry := LogEventUseCase.buildEntry env request
    if !(LogEntry.IsValid logEntry) then
      ⟨Except.error DomainError.invalidLogEntry, 1, 1, [], []⟩
    else
      match env.storeResult logEntry with
      | some e => ⟨Except.error e, 1, 1, [logEntry], []⟩
      | none =>
        if LogEntry.ShouldAlert logEntry then
          let alertSent := (env.sendAlertResult logEntry).isNone
          ⟨Except.ok ⟨logEntry.ID, logEntry.Timestamp, true, alertSent⟩,
            1, 1, [logEntry], [logEntry]⟩
        else
          ⟨Except.ok ⟨logEntry.ID, logEntry.Timestamp, true, false⟩,
            1, 1, [logEntry], []⟩

/-- The LogFilter value object (domain/interfaces). -/
structure LogFilter where
  TimeFrom : Option Int
  TimeTo : Option Int
  Services : List String
  Events : List String
  Levels : List LogLevel
  UserID : Option Int
  ChatID : Option Int
  MessageContains : String
  Limit : Int
  Offset : Int
  SortBy : String
  SortOrder : String
deriving DecidableEq, Repr

/-- The LogStats value object (domain/interfaces); the count maps are
modelled as association lists, inclusive of the TimeRange pair. -/
structure LogStats where
  TotalCount : Int
  CountByLevel : List (LogLevel × Int)
  CountByService : List (String × Int)
  CountByEvent : List (String × Int)
  TimeRangeFrom : Int
  TimeRangeTo : Int
deriving DecidableEq, Repr

/-- QueryLogsRequest DTO. -/
structure QueryLogsRequest where
  Filter : LogFilter
deriving DecidableEq, Repr

/-- QueryLogsResponse DTO. -/
structure QueryLogsResponse where
  Logs : List LogEntry
  TotalCount : Int
  HasMore : Bool
deriving DecidableEq, Repr

/-- GetLogStatsRequest DTO. -/
structure GetLogStatsRequest where
  Filter : LogFilter
deriving DecidableEq, Repr

/-- GetLogStatsResponse DTO. -/
structure GetLogStatsResponse where
  Stats : LogStats
deriving DecidableEq, Repr

/-- The repository collaborator of QueryLogsUseCase: the outcomes of
Query and Count on a given filter. -/
structure QueryLogsEnv where
  queryResult : LogFilter → Except DomainError (List LogEntry)
  countResult : LogFilter → Except DomainError Int

/-- Execution trace of one QueryLogsUseCase.Execute call. -/
structure QueryLogsTrace where
  result : Except DomainError QueryLogsResponse
  queryCalls : List LogFilter
  countCalls : List LogFilter
deriving DecidableEq, Repr

/-- `func (uc *QueryLogsUseCase) validateFilter(filter interfaces.LogFilter) error`:
limit below 0, limit above 1000, offset below 0, then TimeTo before TimeFrom
when both bounds are set; each failure returns ErrInvalidFilter. -/
def QueryLogsUseCase.validateFilter (filter : LogFilter) : Option DomainError :=
  if filter.Limit < 0 then some DomainError.invalidFilter
  else if filter.Limit > 1000 then some DomainError.invalidFilter
  else if filter.Offset < 0 then some DomainError.invalidFilter
  else
    match filter.TimeFrom, filter.TimeTo with
    | some a, some b => if b < a then some DomainError.invalidFilter else none
    | _, _ => none

/-- `func (uc *QueryLogsUseCase) applyDefaults(filter interfaces.LogFilter) interfaces.LogFilter`:
limit 100 when zero, sortBy "timestamp" when empty, sortOrder "desc" when empty. -/
def QueryLogsUseCase.applyDefaults (filter : LogFilter) : LogFilter :=
  let filter := if filter.Limit == 0 then { filter with Limit := 100 } else filter
  let filter := if filter.SortBy == "" then { filter with SortBy := "timestamp" } else filter
  if filter.SortOrder == "" then { filter with SortOrder := "desc" } else filter

/-- `func (uc *QueryLogsUseCase) Execute`: validate, apply defaults, Query,
Count, compute `hasMore := int64(filter.Offset+len(logs)) < totalCount`. -/
def QueryLogsUseCase.Execute (env : QueryLogsEnv) (request : QueryLogsRequest) : QueryLogsTrace :=
  match QueryLogsUseCase.validateFilter request.Filter with
  | some e => ⟨Except.error e, [], []⟩
  | none =>
    let filter := QueryLogsUseCase.applyDefaults request.Filter
    match env.queryResult filter with
    | Except.error e => ⟨Except.error e, [filter], []⟩
    | Except.ok logs =>
      match env.countResult filter with
      | Except.error e => ⟨Except.error e, [filter], [filter]⟩
      | Except.ok totalCount =>
        let hasMore : Bool := decide (filter.Offset + (logs.length : Int) < totalCount)
        ⟨Except.ok ⟨logs, totalCount, hasMore⟩, [filter], [filter]⟩

/-- The repository collaborator of GetLogStatsUseCase: the outcome of
GetStats on a given filter. -/
structure GetLogStatsEnv where
  getStatsResult : LogFilter → Except DomainError LogStats

/-- Execution trace of one GetLogStatsUseCase.Execute call. -/
structure GetLogStatsTrace where
  result : Except DomainError GetLogStatsResponse
  getStatsCalls : List LogFilter
deriving DecidableEq, Repr

/-- `func (uc *GetLogStatsUseCase) validateFilter(filter interfaces.LogFilter) error`:
only the time-range check — ErrInvalidFilter when both bounds are set and
TimeTo is before TimeFrom. -/
def GetLogStatsUseCase.validateFilter (filter : LogFilter) : Option DomainError :=
  match filter.TimeFrom, filter.TimeTo with
  | some a, some b => if b < a then some DomainError.invalidFilter else none
  | _, _ => none

/-- `func (uc *GetLogStatsUseCase) Execute`: validate the time range, then
GetStats on the unmodified filter and wrap the stats verbatim. -/
def GetLogStatsUseCase.Execute (env : GetLogStatsEnv) (request : GetLogStatsRequest) :
    GetLogStatsTrace :=
  match GetLogStatsUseCase.validateFilter request.Filter with
  | some e => ⟨Except.error e, []⟩
  | none =>
    match env.getStatsResult request.Filter with
    | Except.error e => ⟨Except.error e, [request.Filter]⟩
    | Except.ok stats => ⟨Except.ok ⟨stats⟩, [request.Filter]⟩

/-- The all-fields-unset filter, Go's zero value of LogFilter. -/
def LogFilter.zero : LogFilter :=
  ⟨none, none, [], [], [], none, none, "", 0, 0, "", ""⟩

/-- C8: LogEntry.IsValid is false exactly when id, service, event or message
is empty or all-whitespace, or the level is outside the integer range 1..5,
or the timestamp is the zero value; otherwise it is true. -/
theorem c8_log_entry_is_valid_iff (e : LogEntry) :
    LogEntry.IsValid e = false ↔
      (trimSpaceIsEmpty e.ID = true ∨ trimSpaceIsEmpty e.Service = true ∨
       trimSpaceIsEmpty e.Event = true ∨ trimSpaceIsEmpty e.Message = true ∨
       ¬(1 ≤ e.Level ∧ e.Level ≤ 5) ∨ e.Timestamp = 0) := by
  cases hID : trimSpaceIsEmpty e.ID <;>
  cases hS : trimSpaceIsEmpty e.Service <;>
  cases hE : trimSpaceIsEmpty e.Event <;>
  cases hM : trimSpaceIsEmpty e.Message <;>
  cases hT : e.Timestamp == 0 <;>
    simp_all [LogEntry.IsValid, LogLevel.IsValid, LogLevelDebug, LogLevelCritical]

/-- C9: whenever the create-log use case invokes SendAlert on an entry, the
repository's Store was invoked on exactly that same entry (all fields equal). -/
theorem c9_alert_entry_equals_stored_entry (env : LogEventEnv) (req : LogEventRequest)
    (e : LogEntry) (h : e ∈ (LogEventUseCase.Execute env req).sendAlertCalls) :
    (LogEventUseCase.Execute env req).storeCalls = [e] := by
  unfold LogEventUseCase.Execute at *
  cases hv : LogEventUseCase.validateRequest req <;> simp only [hv] at h ⊢
  case none =>
    cases hiv : LogEntry.IsValid (LogEventUseCase.buildEntry env req) <;>
      simp only [hiv, Bool.not_true, Bool.not_false, if_true, if_false] at h ⊢
    case true =>
      cases hs : env.storeResult (LogEventUseCase.buildEntry env req) <;>
        simp only [hs] at h ⊢
      case none =>
        cases ha : LogEntry.ShouldAlert (LogEventUseCase.buildEntry env req) <;>
          simp only [ha, if_true, if_false] at h ⊢
        case true => simp_all
        case false => simp_all
      case some => simp_all
    case false => simp_all
  case some => simp_all

theorem c9_alert_entry_equals_stored_entry_witness :
    (let env : LogEventEnv := ⟨"id-1", 10, fun _ => none, fun _ => none⟩
     let req : LogEventRequest := ⟨LogLevelCritical, "svc", "evt", "msg", none, none, []⟩
     let e : LogEntry :=
       ⟨"id-1", LogLevelCritical, "svc", "evt", 10, none, none, "msg", []⟩
     e ∈ (LogEventUseCase.Execute env req).sendAlertCalls ∧
       (LogEventUseCase.Execute env req).storeCalls = [e]) :=
  ⟨by decide, c9_alert_entry_equals_stored_entry _ _ _ (by decide)⟩

/-- C1: a single SendAlert call is attempted exactly when the request passed
validation, the built entry is valid, Store succeeded and ShouldAlert holds;
and whenever Store succeeded the use case returns success=true with
alert_sent true exactly when SendAlert returned no error — an alert failure
never fails the use case. -/
theorem c1_alert_best_effort (env : LogEventEnv) (req : LogEventRequest) :
    ((LogEventUseCase.Execute env req).sendAlertCalls =
      if ((LogEventUseCase.validateRequest req).isNone &&
          LogEntry.IsValid (LogEventUseCase.buildEntry env req) &&
          (env.storeResult (LogEventUseCase.buildEntry env req)).isNone &&
          LogEntry.ShouldAlert (LogEventUseCase.buildEntry env req) : Bool)
      then [LogEventUseCase.buildEntry env req] else [])
    ∧ (((LogEventUseCase.validateRequest req).isNone &&
        LogEntry.IsValid (LogEventUseCase.buildEntry env req) &&
        (env.storeResult (LogEventUseCase.buildEntry env req)).isNone) = true →
      (LogEventUseCase.Execute env req).result =
        Except.ok ⟨(LogEventUseCase.buildEntry env req).ID,
          (LogEventUseCase.buildEntry env req).Timestamp, true,
          LogEntry.ShouldAlert (LogEventUseCase.buildEntry env req) &&
            (env.sendAlertResult (LogEventUseCase.buildEntry env req)).isNone⟩) := by
  unfold LogEventUseCase.Execute
  cases hv : LogEventUseCase.validateRequest req <;>
  · cases hiv : LogEntry.IsValid (LogEventUseCase.buildEntry env req) <;>
    · cases hs : env.storeResult (LogEventUseCase.buildEntry env req) <;>
      · cases ha : LogEntry.ShouldAlert (LogEventUseCase.buildEntry env req) <;>
          simp [hv, hiv, hs, ha]

theorem c1_alert_best_effort_witness :
    (((LogEventUseCase.validateRequest
          ⟨LogLevelCritical, "svc", "evt", "msg", none, none, []⟩).isNone &&
      LogEntry.IsValid (LogEventUseCase.buildEntry
          ⟨"id-1", 10, fun _ => none, fun _ => some DomainError.alertServiceUnavailable⟩
          ⟨LogLevelCritical, "svc", "evt", "msg", none, none, []⟩) &&
      ((⟨"id-1", 10, fun _ => none, fun _ => some DomainError.alertServiceUnavailable⟩ :
          LogEventEnv).storeResult (LogEventUseCase.buildEntry
          ⟨"id-1", 10, fun _ => none, fun _ => some DomainError.alertServiceUnavailable⟩
          ⟨LogLevelCritical, "svc", "evt", "msg", none, none, []⟩)).isNone) = true)
    ∧ (LogEventUseCase.Execute
        ⟨"id-1", 10, fun _ => none, fun _ => some DomainError.alertServiceUnavailable⟩
        ⟨LogLevelCritical, "svc", "evt", "msg", none, none, []⟩).result =
      Except.ok ⟨"id-1", 10, true, false⟩ :=
  ⟨by decide,
    (c1_alert_best_effort
      ⟨"id-1", 10, fun _ => none, fun _ => some DomainError.alertServiceUnavailable⟩
      ⟨LogLevelCritical, "svc", "evt", "msg", none, none, []⟩).2 (by decide)⟩

/-- C2: if the request passes both validations and the repository's Store
returns an error, the use case returns exactly that error and SendAlert is
never invoked. -/
theorem c2_store_error_propagates (env : LogEventEnv) (req : LogEventRequest)
    (err : DomainError)
    (hv : LogEventUseCase.validateRequest req = none)
    (hiv : LogEntry.IsValid (LogEventUseCase.buildEntry env req) = true)
    (hs : env.storeResult (LogEventUseCase.buildEntry env req) = some err) :
    (LogEventUseCase.Execute env req).result = Except.error err ∧
      (LogEventUseCase.Execute env req).sendAlertCalls = [] := by
  unfold LogEventUseCase.Execute
  simp [hv, hiv, hs]

theorem c2_store_error_propagates_witness :
    (LogEventUseCase.validateRequest
        ⟨LogLevelInfo, "svc", "evt", "msg", none, none, []⟩ = none)
    ∧ ((LogEventUseCase.Execute
        ⟨"id-1", 10, fun _ => some DomainError.storageUnavailable, fun _ => none⟩
        ⟨LogLevelInfo, "svc", "evt", "msg", none, none, []⟩).result =
          Except.error DomainError.storageUnavailable ∧
      (LogEventUseCase.Execute
        ⟨"id-1", 10, fun _ => some DomainError.storageUnavailable, fun _ => none⟩
        ⟨LogLevelInfo, "svc", "evt", "msg", none, none, []⟩).sendAlertCalls = []) :=
  ⟨by decide,
    c2_store_error_propagates
      ⟨"id-1", 10, fun _ => some DomainError.storageUnavailable, fun _ => none⟩
      ⟨LogLevelInfo, "svc", "evt", "msg", none, none, []⟩
      DomainError.storageUnavailable (by decide) (by decide) (by decide)⟩

/-- C3: when the request's level is invalid or its service, event or message
is empty or all-whitespace, the use case returns ErrInvalidLogEntry and no
collaborator — id generator, clock, repository or alert service — is
invoked. -/
theorem c3_invalid_request_fails_fast (env : LogEventEnv) (req : LogEventRequest)
    (h : LogLevel.IsValid req.Level = false ∨ trimSpaceIsEmpty req.Service = true ∨
      trimSpaceIsEmpty req.Event = true ∨ trimSpaceIsEmpty req.Message = true) :
    LogEventUseCase.Execute env req =
      ⟨Except.error DomainError.invalidLogEntry, 0, 0, [], []⟩ := by
  have hv : LogEventUseCase.validateRequest req = some DomainError.invalidLogEntry := by
    unfold LogEventUseCase.validateRequest
    rcases h with h | h | h | h <;> simp [h]
  unfold LogEventUseCase.Execute
  rw [hv]

theorem c3_invalid_request_fails_fast_witness :
    (LogLevel.IsValid
        (⟨LogLevelInfo, " ", "evt", "msg", none, none, []⟩ : LogEventRequest).Level = false ∨
      trimSpaceIsEmpty
        (⟨LogLevelInfo, " ", "evt", "msg", none, none, []⟩ : LogEventRequest).Service = true ∨
      trimSpaceIsEmpty
        (⟨LogLevelInfo, " ", "evt", "msg", none, none, []⟩ : LogEventRequest).Event = true ∨
      trimSpaceIsEmpty
        (⟨LogLevelInfo, " ", "evt", "msg", none, none, []⟩ : LogEventRequest).Message = true)
    ∧ LogEventUseCase.Execute ⟨"id-1", 10, fun _ => none, fun _ => none⟩
        ⟨LogLevelInfo, " ", "evt", "msg", none, none, []⟩ =
      ⟨Except.error DomainError.invalidLogEntry, 0, 0, [], []⟩ :=
  ⟨by decide,
    c3_invalid_request_fails_fast ⟨"id-1", 10, fun _ => none, fun _ => none⟩
      ⟨LogLevelInfo, " ", "evt", "msg", none, none, []⟩ (by decide)⟩

/-- applyDefaults written as a single record update: it sets Limit, SortBy,
SortOrder to their defaults exactly when they are at their zero values and
copies every other field. -/
theorem QueryLogsUseCase.applyDefaults_eq (f : LogFilter) :
    QueryLogsUseCase.applyDefaults f =
      { f with
        Limit := if f.Limit == 0 then 100 else f.Limit,
        SortBy := if f.SortBy == "" then "timestamp" else f.SortBy,
        SortOrder := if f.SortOrder == "" then "desc" else f.SortOrder } := by
  unfold QueryLogsUseCase.applyDefaults
  split_ifs <;> simp_all

/-- After a successful filter validation, Query is called exactly once with
the defaulted filter, and every Count call is on that same defaulted filter. -/
theorem QueryLogsUseCase.execute_calls (env : QueryLogsEnv) (f : LogFilter)
    (hv : QueryLogsUseCase.validateFilter f = none) :
    (QueryLogsUseCase.Execute env ⟨f⟩).queryCalls = [QueryLogsUseCase.applyDefaults f] ∧
      ∀ g ∈ (QueryLogsUseCase.Execute env ⟨f⟩).countCalls,
        g = QueryLogsUseCase.applyDefaults f := by
  unfold QueryLogsUseCase.Execute
  cases hq : env.queryResult (QueryLogsUseCase.applyDefaults f) <;>
  · cases hc : env.countResult (QueryLogsUseCase.applyDefaults f) <;>
      simp [hv, hq, hc]

/-- C4: a query-logs filter with limit below 0, limit above 1000, offset
below 0, or both time bounds set with the upper strictly before the lower,
makes the use case return ErrInvalidFilter with neither Query nor Count
called; and any filter within those bounds — including limit exactly 1000
and equal time bounds — passes validation. -/
theorem c4_query_filter_validation (env : QueryLogsEnv) (f : LogFilter) :
    ((f.Limit < 0 ∨ 1000 < f.Limit ∨ f.Offset < 0 ∨
        (∃ a b, f.TimeFrom = some a ∧ f.TimeTo = some b ∧ b < a)) →
      QueryLogsUseCase.Execute env ⟨f⟩ =
        ⟨Except.error DomainError.invalidFilter, [], []⟩)
    ∧ ((0 ≤ f.Limit ∧ f.Limit ≤ 1000 ∧ 0 ≤ f.Offset ∧
        (∀ a b, f.TimeFrom = some a → f.TimeTo = some b → a ≤ b)) →
      QueryLogsUseCase.validateFilter f = none) := by
  constructor
  · intro h
    have hv : QueryLogsUseCase.validateFilter f = some DomainError.invalidFilter := by
      unfold QueryLogsUseCase.validateFilter
      by_cases h1 : f.Limit < 0
      · simp [h1]
      by_cases h2 : f.Limit > 1000
      · simp [h1, h2]
      by_cases h3 : f.Offset < 0
      · simp [h1, h2, h3]
      rcases h with h | h | h | ⟨a, b, ha, hb, hab⟩
      · omega
      · omega
      · omega
      · rw [if_neg h1, if_neg h2, if_neg h3, ha, hb]
        simp [hab]
    unfold QueryLogsUseCase.Execute
    rw [hv]
  · intro ⟨h1, h2, h3, h4⟩
    unfold QueryLogsUseCase.validateFilter
    have e1 : ¬ f.Limit < 0 := by omega
    have e2 : ¬ f.Limit > 1000 := by omega
    have e3 : ¬ f.Offset < 0 := by omega
    rw [if_neg e1, if_neg e2, if_neg e3]
    cases ha : f.TimeFrom with
    | none => rfl
    | some a =>
      cases hb : f.TimeTo with
      | none => rfl
      | some b => simp [not_lt.2 (h4 a b ha hb)]

theorem c4_query_filter_validation_witness :
    (((LogFilter.mk none none [] [] [] none none "" 1001 0 "" "").Limit < 0 ∨
        1000 < (LogFilter.mk none none [] [] [] none none "" 1001 0 "" "").Limit ∨
        (LogFilter.mk none none [] [] [] none none "" 1001 0 "" "").Offset < 0 ∨
        (∃ a b,
          (LogFilter.mk none none [] [] [] none none "" 1001 0 "" "").TimeFrom = some a ∧
          (LogFilter.mk none none [] [] [] none none "" 1001 0 "" "").TimeTo = some b ∧
          b < a)) ∧
      QueryLogsUseCase.Execute ⟨fun _ => Except.ok [], fun _ => Except.ok 0⟩
          ⟨LogFilter.mk none none [] [] [] none none "" 1001 0 "" ""⟩ =
        ⟨Except.error DomainError.invalidFilter, [], []⟩)
    ∧ ((0 ≤ (LogFilter.mk (some 5) (some 5) [] [] [] none none "" 1000 0 "" "").Limit ∧
        (LogFilter.mk (some 5) (some 5) [] [] [] none none "" 1000 0 "" "").Limit ≤ 1000 ∧
        0 ≤ (LogFilter.mk (some 5) (some 5) [] [] [] none none "" 1000 0 "" "").Offset ∧
        (∀ a b,
          (LogFilter.mk (some 5) (some 5) [] [] [] none none "" 1000 0 "" "").TimeFrom = some a →
          (LogFilter.mk (some 5) (some 5) [] [] [] none none "" 1000 0 "" "").TimeTo = some b →
          a ≤ b)) ∧
      QueryLogsUseCase.validateFilter
        (LogFilter.mk (some 5) (some 5) [] [] [] none none "" 1000 0 "" "") = none) :=
  ⟨⟨by simp,
    (c4_query_filter_validation ⟨fun _ => Except.ok [], fun _ => Except.ok 0⟩
      (LogFilter.mk none none [] [] [] none none "" 1001 0 "" "")).1 (by simp)⟩,
   ⟨by simp,
    (c4_query_filter_validation ⟨fun _ => Except.ok [], fun _ => Except.ok 0⟩
      (LogFilter.mk (some 5) (some 5) [] [] [] none none "" 1000 0 "" "")).2 (by simp)⟩⟩

/-- C5: for every filter that passes validation, Query receives exactly one
filter whose limit is 100 precisely when the request's limit was 0 (else the
request's limit), whose sortBy is "timestamp" precisely when the request's
sortBy was empty (else the request's sortBy), and whose sortOrder is "desc"
precisely when the request's sortOrder was empty (else the request's
sortOrder) — explicit values are never overridden. -/
theorem c5_query_defaults (env : QueryLogsEnv) (f : LogFilter)
    (hv : QueryLogsUseCase.validateFilter f = none) :
    ∃ g, (QueryLogsUseCase.Execute env ⟨f⟩).queryCalls = [g] ∧
      g.Limit = (if f.Limit = 0 then 100 else f.Limit) ∧
      g.SortBy = (if f.SortBy = "" then "timestamp" else f.SortBy) ∧
      g.SortOrder = (if f.SortOrder = "" then "desc" else f.SortOrder) := by
  refine ⟨QueryLogsUseCase.applyDefaults f,
    (QueryLogsUseCase.execute_calls env f hv).1, ?_, ?_, ?_⟩ <;>
  · rw [QueryLogsUseCase.applyDefaults_eq]
    split_ifs <;> simp_all

theorem c5_query_defaults_witness :
    QueryLogsUseCase.validateFilter LogFilter.zero = none ∧
    ∃ g, (QueryLogsUseCase.Execute
        ⟨fun _ => Except.ok [], fun _ => Except.ok 0⟩ ⟨LogFilter.zero⟩).queryCalls = [g] ∧
      g.Limit = (if LogFilter.zero.Limit = 0 then 100 else LogFilter.zero.Limit) ∧
      g.SortBy = (if LogFilter.zero.SortBy = "" then "timestamp" else LogFilter.zero.SortBy) ∧
      g.SortOrder =
        (if LogFilter.zero.SortOrder = "" then "desc" else LogFilter.zero.SortOrder) :=
  ⟨by decide,
    c5_query_defaults ⟨fun _ => Except.ok [], fun _ => Except.ok 0⟩ LogFilter.zero (by decide)⟩

/-- C6: when validation passes and both repository calls succeed, the
response holds exactly the entries Query returned, exactly the total Count
returned, and hasMore equals (request offset + number of returned entries)
strictly less than totalCount. -/
theorem c6_has_more (env : QueryLogsEnv) (f : LogFilter)
    (logs : List LogEntry) (n : Int)
    (hv : QueryLogsUseCase.validateFilter f = none)
    (hq : env.queryResult (QueryLogsUseCase.applyDefaults f) = Except.ok logs)
    (hc : env.countResult (QueryLogsUseCase.applyDefaults f) = Except.ok n) :
    (QueryLogsUseCase.Execute env ⟨f⟩).result =
      Except.ok ⟨logs, n, decide (f.Offset + (logs.length : Int) < n)⟩ := by
  have hoff : (QueryLogsUseCase.applyDefaults f).Offset = f.Offset := by
    rw [QueryLogsUseCase.applyDefaults_eq]
  unfold QueryLogsUseCase.Execute
  simp [hv, hq, hc, hoff]

theorem c6_has_more_witness :
    QueryLogsUseCase.validateFilter { LogFilter.zero with Limit := 1 } = none ∧
    (fun _ => (Except.ok [⟨"log-1", LogLevelInfo, "gateway-service", "update_received",
        10, none, none, "Update processed successfully", []⟩] :
        Except DomainError (List LogEntry)))
      (QueryLogsUseCase.applyDefaults { LogFilter.zero with Limit := 1 }) =
      Except.ok [⟨"log-1", LogLevelInfo, "gateway-service", "update_received",
        10, none, none, "Update processed successfully", []⟩] ∧
    (QueryLogsUseCase.Execute
        ⟨fun _ => Except.ok [⟨"log-1", LogLevelInfo, "gateway-service", "update_received",
            10, none, none, "Update processed successfully", []⟩],
          fun _ => Except.ok 10⟩
        ⟨{ LogFilter.zero with Limit := 1 }⟩).result =
      Except.ok ⟨[⟨"log-1", LogLevelInfo, "gateway-service", "update_received",
          10, none, none, "Update processed successfully", []⟩], 10,
        decide (({ LogFilter.zero with Limit := 1 } : LogFilter).Offset +
          (([⟨"log-1", LogLevelInfo, "gateway-service", "update_received",
              10, none, none, "Update processed successfully", []⟩] :
            List LogEntry).length : Int) < 10)⟩ :=
  ⟨by decide, by decide,
    c6_has_more
      ⟨fun _ => Except.ok [⟨"log-1", LogLevelInfo, "gateway-service", "update_received",
          10, none, none, "Update processed successfully", []⟩],
        fun _ => Except.ok 10⟩
      { LogFilter.zero with Limit := 1 }
      [⟨"log-1", LogLevelInfo, "gateway-service", "update_received",
        10, none, none, "Update processed successfully", []⟩]
      10 (by decide) (by decide) (by decide)⟩

/-- C10: applyDefaults changes only Limit, SortBy and SortOrder — the time
bounds, services, events, levels, user id, chat id, message substring and
offset are copied verbatim — and after a successful validation Query is
called once with the defaulted filter while every Count call receives that
identical defaulted filter. -/
theorem c10_defaults_frame (env : QueryLogsEnv) (f : LogFilter) :
    ((QueryLogsUseCase.applyDefaults f).TimeFrom = f.TimeFrom ∧
     (QueryLogsUseCase.applyDefaults f).TimeTo = f.TimeTo ∧
     (QueryLogsUseCase.applyDefaults f).Services = f.Services ∧
     (QueryLogsUseCase.applyDefaults f).Events = f.Events ∧
     (QueryLogsUseCase.applyDefaults f).Levels = f.Levels ∧
     (QueryLogsUseCase.applyDefaults f).UserID = f.UserID ∧
     (QueryLogsUseCase.applyDefaults f).ChatID = f.ChatID ∧
     (QueryLogsUseCase.applyDefaults f).MessageContains = f.MessageContains ∧
     (QueryLogsUseCase.applyDefaults f).Offset = f.Offset)
    ∧ (QueryLogsUseCase.validateFilter f = none →
      (QueryLogsUseCase.Execute env ⟨f⟩).queryCalls =
          [QueryLogsUseCase.applyDefaults f] ∧
        ∀ g ∈ (QueryLogsUseCase.Execute env ⟨f⟩).countCalls,
          g = QueryLogsUseCase.applyDefaults f) := by
  constructor
  · rw [QueryLogsUseCase.applyDefaults_eq]
    simp
  · intro hv
    exact QueryLogsUseCase.execute_calls env f hv

theorem c10_defaults_frame_witness :
    ((QueryLogsUseCase.applyDefaults
        (LogFilter.mk (some 1) (some 2) ["s"] ["e"] [3] (some 4) (some 5) "m" 0 7 "" "")).TimeFrom
      = some 1 ∧
     QueryLogsUseCase.validateFilter
        (LogFilter.mk (some 1) (some 2) ["s"] ["e"] [3] (some 4) (some 5) "m" 0 7 "" "") = none)
    ∧ (QueryLogsUseCase.Execute ⟨fun _ => Except.ok [], fun _ => Except.ok 0⟩
        ⟨LogFilter.mk (some 1) (some 2) ["s"] ["e"] [3] (some 4) (some 5) "m" 0 7 "" ""⟩).queryCalls
      = [QueryLogsUseCase.applyDefaults
          (LogFilter.mk (some 1) (some 2) ["s"] ["e"] [3] (some 4) (some 5) "m" 0 7 "" "")] :=
  ⟨⟨(c10_defaults_frame ⟨fun _ => Except.ok [], fun _ => Except.ok 0⟩
      (LogFilter.mk (some 1) (some 2) ["s"] ["e"] [3] (some 4) (some 5) "m" 0 7 "" "")).1.1,
    by decide⟩,
   ((c10_defaults_frame ⟨fun _ => Except.ok [], fun _ => Except.ok 0⟩
      (LogFilter.mk (some 1) (some 2) ["s"] ["e"] [3] (some 4) (some 5) "m" 0 7 "" "")).2
      (by decide)).1⟩

/-- C7: the get-stats use case rejects with ErrInvalidFilter — without
calling the repository — exactly when both time bounds are set and the upper
is strictly before the lower; otherwise (negative limit or offset included,
since they are not validated here) GetStats receives the filter unmodified,
a returned stats object is wrapped verbatim, and a repository error is
returned unchanged. -/
theorem c7_get_stats (env : GetLogStatsEnv) (f : LogFilter) :
    ((∃ a b, f.TimeFrom = some a ∧ f.TimeTo = some b ∧ b < a) →
      GetLogStatsUseCase.Execute env ⟨f⟩ =
        ⟨Except.error DomainError.invalidFilter, []⟩)
    ∧ (¬(∃ a b, f.TimeFrom = some a ∧ f.TimeTo = some b ∧ b < a) →
      (GetLogStatsUseCase.Execute env ⟨f⟩).getStatsCalls = [f] ∧
      (∀ s, env.getStatsResult f = Except.ok s →
        (GetLogStatsUseCase.Execute env ⟨f⟩).result = Except.ok ⟨s⟩) ∧
      (∀ err, env.getStatsResult f = Except.error err →
        (GetLogStatsUseCase.Execute env ⟨f⟩).result = Except.error err)) := by
  have hval : ∀ a b, f.TimeFrom = some a → f.TimeTo = some b → b < a →
      GetLogStatsUseCase.validateFilter f = some DomainError.invalidFilter := by
    intro a b ha hb hab
    unfold GetLogStatsUseCase.validateFilter
    rw [ha, hb]
    simp [hab]
  have hvaln : ¬(∃ a b, f.TimeFrom = some a ∧ f.TimeTo = some b ∧ b < a) →
      GetLogStatsUseCase.validateFilter f = none := by
    intro hn
    unfold GetLogStatsUseCase.validateFilter
    cases ha : f.TimeFrom with
    | none => rfl
    | some a =>
      cases hb : f.TimeTo with
      | none => rfl
      | some b =>
        have : ¬ b < a := fun hab => hn ⟨a, b, ha, hb, hab⟩
        simp [this]
  constructor
  · intro ⟨a, b, ha, hb, hab⟩
    unfold GetLogStatsUseCase.Execute
    rw [hval a b ha hb hab]
  · intro hn
    unfold GetLogStatsUseCase.Execute
    rw [hvaln hn]
    cases hs : env.getStatsResult f <;> simp [hs]

theorem c7_get_stats_witness :
    ((∃ a b,
        (LogFilter.mk (some 9) (some 3) [] [] [] none none "" 0 0 "" "").TimeFrom = some a ∧
        (LogFilter.mk (some 9) (some 3) [] [] [] none none "" 0 0 "" "").TimeTo = some b ∧
        b < a) ∧
      GetLogStatsUseCase.Execute ⟨fun _ => Except.ok ⟨0, [], [], [], 0, 0⟩⟩
          ⟨LogFilter.mk (some 9) (some 3) [] [] [] none none "" 0 0 "" ""⟩ =
        ⟨Except.error DomainError.invalidFilter, []⟩)
    ∧ (¬(∃ a b,
        (LogFilter.mk none none [] [] [] none none "" (-1) (-1) "" "").TimeFrom = some a ∧
        (LogFilter.mk none none [] [] [] none none "" (-1) (-1) "" "").TimeTo = some b ∧
        b < a) ∧
      (GetLogStatsUseCase.Execute ⟨fun _ => Except.ok ⟨0, [], [], [], 0, 0⟩⟩
          ⟨LogFilter.mk none none [] [] [] none none "" (-1) (-1) "" ""⟩).getStatsCalls =
        [LogFilter.mk none none [] [] [] none none "" (-1) (-1) "" ""]) :=
  ⟨⟨⟨9, 3, rfl, rfl, by decide⟩,
    (c7_get_stats ⟨fun _ => Except.ok ⟨0, [], [], [], 0, 0⟩⟩
      (LogFilter.mk (some 9) (some 3) [] [] [] none none "" 0 0 "" "")).1
      ⟨9, 3, rfl, rfl, by decide⟩⟩,
   ⟨by simp,
    ((c7_get_stats ⟨fun _ => Except.ok ⟨0, [], [], [], 0, 0⟩⟩
      (LogFilter.mk none none [] [] [] none none "" (-1) (-1) "" "")).2 (by simp)).1⟩⟩
